import Mathlib

/-!
Verification of the conversational intent & classification engine of the
Peace Pulse wellness app (src/components/Dashboard.tsx `ChatBot`,
src/hooks/wellness-context.tsx).

The TypeScript source is shallowly embedded:
* JavaScript runtime values flowing out of `JSON.parse` are modelled by
  `JsValue` (JSON numbers as exact rationals; host floating-point
  formatting of numbers is not exercised by any theorem).
* The external Gemini service, `JSON.parse`, `Date.now`/`Math.random` id
  generation and the random canned-reply pick are modelled as explicit
  parameters (`ModelCall`, id generator functions, a canned index).
* React state updates: inside one `sendMessage` turn every call to the
  `addHabit`/`addTodos`/`deleteHabit` context functions closes over the habit
  list captured at render time, while the `setHabits(prev => ...)`
  updaters accumulate.  The model therefore threads a `check` list (the
  captured snapshot) separately from the accumulated list.
* JavaScript regular expressions are translated operationally
  (alternation order, greedy/lazy quantifiers and backtracking are
  reproduced); `\s` is modelled by `Char.isWhitespace`, which covers the
  whitespace actually occurring in the strings of the app.
-/

namespace MH

/-! ## JavaScript runtime values -/

mutual
inductive JsValue where
  | jundefined : JsValue
  | jnull : JsValue
  | jbool : Bool → JsValue
  | jnum : Rat → JsValue
  | jstr : String → JsValue
  | jarr : JsArr → JsValue
  | jobj : JsFields → JsValue
deriving DecidableEq

inductive JsArr where
  | nil : JsArr
  | cons : JsValue → JsArr → JsArr
deriving DecidableEq

inductive JsFields where
  | nil : JsFields
  | cons : String → JsValue → JsFields → JsFields
deriving DecidableEq
end

def JsArr.toList : JsArr → List JsValue
  | .nil => []
  | .cons v r => v :: r.toList

def JsArr.ofList : List JsValue → JsArr
  | [] => .nil
  | v :: r => .cons v (JsArr.ofList r)

def JsFields.ofList : List (String × JsValue) → JsFields
  | [] => .nil
  | p :: r => .cons p.1 p.2 (JsFields.ofList r)

def JsFields.lookup : JsFields → String → Option JsValue
  | .nil, _ => none
  | .cons key v rest, k => if key = k then some v else rest.lookup k

/-- JS member access `v.k`: `undefined` on a missing key or a non-object.
(On `null`/`undefined` the host throws a `TypeError`; every occurrence in
the embedded code sits inside a `try` whose `catch` produces the same
fallback the `undefined`-propagation produces, so the two are conflated.) -/
def jsGet (v : JsValue) (k : String) : JsValue :=
  match v with
  | .jobj fs =>
    match fs.lookup k with
    | some w => w
    | none => .jundefined
  | _ => .jundefined

/-- JS truthiness (`NaN` is not modelled; no JSON literal produces it). -/
def jsTruthy : JsValue → Bool
  | .jundefined => false
  | .jnull => false
  | .jbool b => b
  | .jnum n => !(n == 0)
  | .jstr s => !(s == "")
  | .jarr _ => true
  | .jobj _ => true

/-- JS `v > q` for a rational literal `q`; only number-to-number
comparisons occur in the embedded code (string coercion unexercised). -/
def jsGT (v : JsValue) (q : Rat) : Bool :=
  match v with
  | .jnum n => decide (q < n)
  | _ => false

/-- JS `.length` member read, as used in `analysis.habits.length`. -/
def jsLength : JsValue → JsValue
  | .jarr xs => .jnum (mkRat xs.toList.length 1)
  | .jstr s => .jnum (mkRat s.length 1)
  | .jobj fs => match fs.lookup ("length") with
    | some w => w
    | none => .jundefined
  | _ => .jundefined

mutual
/-- JS `String(v)` / template-literal interpolation.  The rendering of
numbers approximates the host float formatting (never exercised). -/
def jsToString : JsValue → String
  | .jundefined => "undefined"
  | .jnull => "null"
  | .jbool b => if b then "true" else "false"
  | .jnum n => toString n
  | .jstr s => s
  | .jarr xs => String.intercalate (",") (jsToStringArr xs)
  | .jobj _ => "[object Object]"

def jsToStringArr : JsArr → List String
  | .nil => []
  | .cons v rest =>
    (match v with
     | .jnull => ""
     | .jundefined => ""
     | w => jsToString w) :: jsToStringArr rest
end

/-! ## String primitives (JS semantics over `List Char`) -/

/-- JS `\s` (approximated by ASCII whitespace; sufficient for the app). -/
def jsWsChar (c : Char) : Bool := c.isWhitespace

/-- JS `\w` word character `[A-Za-z0-9_]`. -/
def isWordChar (c : Char) : Bool :=
  (('a' ≤ c && c ≤ 'z') || ('A' ≤ c && c ≤ 'Z') || ('0' ≤ c && c ≤ '9') || c = '_')

/-- If `lit` is a prefix of `s`, the remainder of `s`. -/
def dropLit : List Char → List Char → Option (List Char)
  | [], s => some s
  | _, [] => none
  | a :: ps, b :: ss => if a = b then dropLit ps ss else none

/-- JS `hay.includes(needle)` on character lists. -/
def containsSubL : List Char → List Char → Bool
  | [], needle => needle.isEmpty
  | hay@(_ :: rest), needle => (dropLit needle hay).isSome || containsSubL rest needle

/-- JS `hay.includes(needle)`. -/
def containsSub (hay needle : String) : Bool := containsSubL hay.data needle.data

/-- One regex alternation of plain literals, tested by substring search
(the JS idiom `/(w1|w2|...)/.test(t)` and `keywords.some(k => t.includes(k))`). -/
def containsAny (t : String) (ws : List String) : Bool :=
  ws.any (fun w => containsSub t w)

/-- JS `s.toLowerCase()` (ASCII; no non-ASCII letters occur). -/
def jsLower (s : String) : String := ⟨s.data.map Char.toLower⟩

def ltrimL (l : List Char) : List Char := l.dropWhile jsWsChar

def rtrimL (l : List Char) : List Char := (l.reverse.dropWhile jsWsChar).reverse

def trimL (l : List Char) : List Char := rtrimL (ltrimL l)

/-- JS `s.trim()`. -/
def jsTrimS (s : String) : String := ⟨trimL s.data⟩

/-- JS `s.startsWith(p)`. -/
def strStartsWith (s p : String) : Bool := (dropLit p.data s.data).isSome

/-- JS `s.split('\n')`. -/
def splitOnNl : List Char → List (List Char)
  | [] => [[]]
  | c :: rest =>
    if c = '\n' then [] :: splitOnNl rest
    else
      match splitOnNl rest with
      | [] => [[c]]
      | l :: ls => (c :: l) :: ls

def splitLines (s : String) : List String := (splitOnNl s.data).map (fun l => (⟨l⟩ : String))

/-- Maximal groups of non-whitespace characters (JS
`s.split(/\s+/)` up to empty pieces, which every caller filters away). -/
def splitWsAux : List Char → List Char → List (List Char)
  | [], acc => if acc.isEmpty then [] else [acc.reverse]
  | c :: rest, acc =>
    if jsWsChar c then
      if acc.isEmpty then splitWsAux rest [] else acc.reverse :: splitWsAux rest []
    else splitWsAux rest (c :: acc)

def splitWs (l : List Char) : List (List Char) := splitWsAux l []

/-- `\s+`: at least one whitespace character, consumed greedily (every
token that can follow it in the embedded patterns starts with a
non-whitespace character, so greediness never needs backtracking). -/
def wsPlus1 : List Char → Option (List Char)
  | [] => none
  | c :: rest => if jsWsChar c then some (rest.dropWhile jsWsChar) else none

/-- Leftmost-match search: try the matcher at every start position. -/
def scanStarts (f : List Char → Option α) : List Char → Option α
  | [] => f []
  | c :: rest => (f (c :: rest)) <|> scanStarts f rest

end MH

namespace MH

/-! ## Off-topic filter (`isOffTopic`, Dashboard.tsx 390-423) -/

def offTopicKeywords : List String := [
  -- Technology & Programming
  "code", "programming", "software", "app", "website", "ui", "ux", "design", "frontend", "backend", "database", "api",
  "javascript", "python", "react", "node", "html", "css", "git", "github", "deployment", "server",
  -- News & Politics
  "news", "politics", "election", "president", "government", "congress", "senate", "vote", "campaign", "republican", "democrat",
  "world news", "breaking news", "current events", "international", "foreign policy",
  -- Finance & Business
  "stock", "market", "investment", "money", "finance", "banking", "economy", "business", "company", "startup", "entrepreneur",
  "cryptocurrency", "bitcoin", "trading", "portfolio", "retirement", "insurance",
  -- Sports & Entertainment
  "sports", "football", "basketball", "baseball", "soccer", "tennis", "golf", "olympics", "championship", "tournament",
  "movie", "film", "actor", "actress", "celebrity", "music", "song", "album", "concert", "tv show", "television",
  -- Vehicles & Transportation
  "car", "vehicle", "automobile", "truck", "motorcycle", "bike", "bicycle", "public transport", "subway", "bus", "train",
  "airplane", "flight", "travel", "vacation", "trip", "destination",
  -- Academic & General Knowledge
  "math", "mathematics", "science", "physics", "chemistry", "biology", "history", "geography", "literature", "philosophy",
  "art", "architecture", "engineering", "medicine", "law", "education", "research", "study",
  -- Personal Life (non-mental health related)
  "dating", "relationship advice", "marriage", "wedding", "parenting", "childcare", "cooking", "recipe", "food", "diet",
  "fashion", "clothing", "shopping", "home improvement", "gardening", "pets", "animals"]

def isOffTopic (text : String) : Bool :=
  containsAny (jsLower text) offTopicKeywords

/-! ## Fixed reply texts (Dashboard.tsx 242-250, 427-430, 475) -/

def botResponses : List String := [
  "• That sounds like you\x27re going through a lot. Remember, it\x27s *okay* to feel this way.\n• What usually helps you feel *better*?\n• Is there someone you can *talk to* about this?",
  "• I hear you. Taking time for yourself is so *important*.\n• Have you tried any *breathing exercises* today?\n• What\x27s one *small thing* you could do for yourself right now?",
  "• It\x27s wonderful that you\x27re *sharing* this with me.\n• What usually helps you feel *better*?\n• Would you like to try a quick *mindfulness exercise*?",
  "• Thank you for being *open* about your feelings.\n• Would you like to try a quick *mindfulness exercise*?\n• Remember, you\x27re *not alone* in this journey.",
  "• I understand. Sometimes just *talking* about it can help.\n• Is there anything *specific* on your mind?\n• What\x27s one thing that would make today a little *better*?",
  "• That\x27s a *great insight*. How can we work together to support your wellbeing today?\n• What *small step* feels manageable right now?\n• You\x27re doing *great* by reaching out.",
  "• I\x27m glad you\x27re taking care of yourself.\n• What\x27s one *small thing* you could do for yourself right now?\n• Remember to be *kind* to yourself today."]

def offTopicReply : String :=
  "• I\x27m here specifically to support your *mental health and wellbeing*.\n• I can help with topics like *stress management*, *anxiety*, *stress tracking*, *sleep issues*, *self-care*, and *healthy habits*.\n• What\x27s on your mind regarding your *emotional wellbeing* today?"

/-- The safety text prepended to the model reply when the crisis pattern
matches (Dashboard.tsx 475), up to and including the final bullet that
precedes the model-generated body. -/
def crisisPreface : String :=
  "• I\x27m really sorry you\x27re feeling this way. You deserve *immediate support*.\n• If you might be in danger or thinking about hurting yourself, please contact *local emergency services*, a trusted person, or a crisis line in your area *right now*.\n• If you\x27d like, I can share *grounding or breathing steps* while you reach out.\n• "

/-- `/(suicide|kill myself|end it|can’t go on|self[- ]?harm|hurt myself)/i`
(Dashboard.tsx 473), expanded into its literal alternatives. -/
def crisisWords : List String :=
  ["suicide", "kill myself", "end it", "can\x27t go on", "self-harm", "self harm", "selfharm", "hurt myself"]

def crisisHit (userText : String) : Bool :=
  containsAny (jsLower userText) crisisWords

end MH

namespace MH

/-! ## Classification result (`Analyzed`, Dashboard.tsx 486-489)

At runtime nothing constrains the parsed `stressLevel` beyond truthiness
and `category` beyond `|| "health"`, so both are modelled as `JsValue`;
titles go through `String(...)` and are genuine strings. -/

structure Todo where
  title : String
  category : JsValue
deriving DecidableEq

structure Analyzed where
  stressLevel : JsValue
  todos : List Todo
deriving DecidableEq

/-! ## Rule-based fallback classifier (`fallbackAnalyze`, Dashboard.tsx 563-595) -/

/-- `/(great|awesome|fantastic|amazing|grateful|happy|joyful|calm|relaxed|peaceful)/` -/
def posWords : List String :=
  ["great", "awesome", "fantastic", "amazing", "grateful", "happy", "joyful", "calm", "relaxed", "peaceful"]

/-- `/(good|fine|better|optimistic|content|satisfied)/` -/
def mildWords : List String :=
  ["good", "fine", "better", "optimistic", "content", "satisfied"]

/-- `/(stressed|anxious|worried|tense|overwhelmed|frustrated)/` -/
def negWords : List String :=
  ["stressed", "anxious", "worried", "tense", "overwhelmed", "frustrated"]

/-- The explicit-cause alternation `stressReasons` (Dashboard.tsx 572); the
same literal list reappears at Dashboard.tsx 987. -/
def causeWords : List String :=
  ["work", "job", "deadline", "meeting", "project", "boss", "colleague", "relationship", "partner", "family", "friend", "health", "medical", "doctor", "hospital", "finances", "money", "bill", "debt", "rent", "mortgage", "school", "exam", "test", "assignment", "homework", "traffic", "commute", "weather", "noise", "crowd", "social", "party", "event"]

/-- `/(awful|terrible|horrible|depressed|can’t cope|can’t cope|panic|extreme)/`
(the two escaped spellings denote the same literal, kept once). -/
def sevWords : List String :=
  ["awful", "terrible", "horrible", "depressed", "can\x27t cope", "panic", "extreme"]

def posHit (t : String) : Bool := containsAny t posWords

def mildHit (t : String) : Bool := containsAny t mildWords

def negHit (t : String) : Bool := containsAny t negWords

def causeHit (t : String) : Bool := containsAny t causeWords

def sevHit (t : String) : Bool := containsAny t sevWords

/-- The `stressLevel` if-chain of `fallbackAnalyze` (factored out of the
function body; `t` is the already lower-cased text). -/
def fallbackStressLevel (t : String) : JsValue :=
  if posHit t then .jstr ("very-low")
  else if mildHit t then .jstr ("low")
  else if negHit t then
    -- Only classify as high stress if there is a clear, explicit reason
    (if causeHit t then .jstr ("high") else .jstr ("moderate"))
  else if sevHit t then .jstr ("very-high")
  else .jstr ("moderate")

def fallbackAnalyze (text : String) : Analyzed :=
  let t := jsLower text
  let stressLevel : JsValue := fallbackStressLevel t
  let todos : List Todo :=
    if stressLevel = .jstr ("high") || stressLevel = .jstr ("very-high") then
      [⟨"Take 3 deep breaths slowly", .jstr ("mindfulness")⟩,
       ⟨"Step outside for fresh air", .jstr ("health")⟩]
    else []
  ⟨stressLevel, todos.take 5⟩

/-! ## Model-backed classifier (`analyzeUserText`, Dashboard.tsx 491-561) -/

/-- Outcome of one request to the external generation service.
`errored` covers a rejected promise (network/service error or the 8-10s
timeout winning the race); `returned p` covers a resolved response whose
brace-delimited slice `JSON.parse`d to `p` (`none` when the slice parse
threw, i.e. the response held no parseable JSON). -/
inductive ModelCall where
  | errored : ModelCall
  | returned : Option JsValue → ModelCall
deriving DecidableEq

/-- `parsed.todos.slice(0, 5).map(t => ({title: String(t.title).trim(),
category: t.category || "health"})).filter(t => t.title.length > 0)` -/
def coerceTodos (items : List JsValue) : List Todo :=
  ((items.take 5).map (fun t =>
      ({ title := jsTrimS (jsToString (jsGet t ("title"))),
         category := if jsTruthy (jsGet t ("category")) then jsGet t ("category") else .jstr ("health") } : Todo))).filter
    (fun t => 0 < t.title.length)

def analyzeUserText (apiKey : Bool) (call : ModelCall) (userText : String) : Analyzed :=
  let fallback := fallbackAnalyze userText
  if apiKey = false then fallback
  else
    match call with
    | .errored => fallback
    | .returned none => fallback
    | .returned (some parsed) =>
      -- Basic validation: `if (!parsed.stressLevel || !Array.isArray(parsed.todos)) throw`
      if jsTruthy (jsGet parsed ("stressLevel")) = false then fallback
      else
        match jsGet parsed ("todos") with
        | .jarr items =>
          let todos := coerceTodos items.toList
          { stressLevel := jsGet parsed ("stressLevel"),
            todos := if todos.length = 0 then fallback.todos else todos }
        | _ => fallback

/-! ## Fixed activity pool and exercise-request test (Dashboard.tsx 597-612) -/

def generateStressReliefActivities : List Todo :=
  [⟨"Deep breathing exercise (4-7-8 technique)", .jstr ("mindfulness")⟩,
   ⟨"10-minute gentle stretching", .jstr ("exercise")⟩,
   ⟨"Mindful journaling for 5 minutes", .jstr ("reflection")⟩,
   ⟨"Progressive muscle relaxation", .jstr ("mindfulness")⟩,
   ⟨"Take a 15-minute walk outside", .jstr ("exercise")⟩]

/-- `/(give me|need|want|looking for|suggest|recommend|provide|show me|tell me|what are|how to|exercise|exercises|workout|activity|activities|routine|practice)/`
— one flat alternation: a single keyword from either vocabulary suffices. -/
def exerciseRequestWords : List String :=
  ["give me", "need", "want", "looking for", "suggest", "recommend", "provide", "show me", "tell me", "what are", "how to", "exercise", "exercises", "workout", "activity", "activities", "routine", "practice"]

def isExerciseRequest (userText : String) : Bool :=
  containsAny (jsLower userText) exerciseRequestWords

end MH

namespace MH

/-! ## Activity extractor (`detectExercisesFromResponse`, Dashboard.tsx 614-683) -/

/-- The common tail `\s*(.+)$` of the two list-marker patterns.  On an
all-whitespace remainder the greedy `\s*` backtracks one step so that
`(.+)` captures the final character. -/
def markerTail (rest : List Char) : Option (List Char) :=
  if rest.isEmpty then none
  else
    let stripped := rest.dropWhile jsWsChar
    if stripped.isEmpty then some [rest.getLastD (' ')] else some stripped

/-- `line.match(/^[•→\-\*]\s*(.+)$/)`, returning the capture. -/
def bulletCapture (l : List Char) : Option (List Char) :=
  match l with
  | [] => none
  | c :: rest =>
    if c = '•' || c = '→' || c = '-' || c = '*' then markerTail rest else none

/-- `line.match(/^\d+\.\s*(.+)$/)`, returning the capture. -/
def numberCapture (l : List Char) : Option (List Char) :=
  let ds := l.takeWhile Char.isDigit
  if ds.isEmpty then none
  else
    match l.drop ds.length with
    | '.' :: rest => markerTail rest
    | _ => none

/-- After the lazy capture of `/^(?:\*\*)?([^:*]+?)(?:\*\*)?\s*:/i`:
`(?:\*\*)?\s*:` (deterministic: a leading `*` can never belong to the
capture class, so the optional `**` is forced when present). -/
def colonBody (t : List Char) : Bool :=
  let t1 := match dropLit (['*', '*']) t with
    | some r => r
    | none => t
  (t1.dropWhile jsWsChar).head? = some ':'

def colonCapLoop : List Char → List Char → Option (List Char)
  | [], _ => none
  | c :: rest, accRev =>
    if c = ':' || c = '*' then none
    else if colonBody rest then some ((c :: accRev).reverse)
    else colonCapLoop rest (c :: accRev)

/-- `fullText.match(/^(?:\*\*)?([^:*]+?)(?:\*\*)?\s*:/i)`, returning the
lazy capture (shortest nonempty run of non-`:`/`*` characters whose
continuation matches). -/
def colonCapture (s : List Char) : Option (List Char) :=
  let s0 := match dropLit (['*', '*']) s with
    | some r => r
    | none => s
  colonCapLoop s0 []

/-- Lookahead `(?=\w+:)`: one or more word characters then a colon. -/
def wordColon (s : List Char) : Bool :=
  let w := s.takeWhile isWordChar
  !w.isEmpty && (s.drop w.length).head? = some ':'

/-- The first piece of `fullText.split(/[.!]|\s+(?=\w+:)/)`: the prefix up
to the first `.`/`!` or whitespace run followed by `word:`. -/
def firstClauseL : List Char → List Char
  | [] => []
  | c :: rest =>
    if c = '.' || c = '!' then []
    else if jsWsChar c && wordColon (rest.dropWhile jsWsChar) then []
    else c :: firstClauseL rest

/-- Alternatives of the `skipFragments` anchored alternation
(Dashboard.tsx 656), each followed by a `\b` word-boundary check. -/
def skipFragmentWords : List String :=
  ["repeat this", "try this", "do this", "which of these", "you don\x27t have", "i\x27m sorry", "that sounds", "remember", "what", "how", "why", "when", "where", "this", "these", "they", "and", "but", "or", "so", "the", "a", "an", "is", "are", "was", "were", "be", "been", "being", "have", "has", "had", "do", "does", "did", "will", "would", "could", "should", "may", "might", "can", "cannot"]

/-- `skipFragments.test(exerciseName)`: some alternative is a prefix of the
(case-folded) name and ends at a word boundary. -/
def skipFragmentsTest (name : String) : Bool :=
  skipFragmentWords.any (fun alt =>
    match dropLit alt.data (jsLower name).data with
    | some [] => true
    | some (c :: _) => !isWordChar c
    | none => false)

def mindfulnessWords : List String :=
  ["breathing", "meditation", "mindfulness", "calm", "relax", "breathe", "inhale", "exhale", "box breathing", "4-7-8", "progressive muscle", "focus", "centering", "grounding"]

def exerciseWords : List String :=
  ["walk", "run", "exercise", "workout", "gym", "sport", "stretching", "yoga", "pose", "movement", "physical", "dance", "swim", "bike", "jog", "hike"]

def reflectionWords : List String :=
  ["journal", "reflect", "gratitude", "writing", "write", "think about", "consider", "contemplate", "meditate on", "express"]

def learningWords : List String :=
  ["learn", "read", "study", "class", "course", "skill", "research", "explore", "discover", "try new", "experiment"]

def healthWords : List String :=
  ["sleep", "eat", "drink", "water", "nutrition", "health", "bedtime", "routine", "self-care", "rest", "recharge", "nourish", "music", "listen"]

/-- Keyword-based category chain of the extractor (Dashboard.tsx 662-674);
the starting value and the final branch both give "health". -/
def categoryOf (lowerText : String) : JsValue :=
  if containsAny lowerText mindfulnessWords then .jstr ("mindfulness")
  else if containsAny lowerText exerciseWords then .jstr ("exercise")
  else if containsAny lowerText reflectionWords then .jstr ("reflection")
  else if containsAny lowerText learningWords then .jstr ("learning")
  else if containsAny lowerText healthWords then .jstr ("health")
  else .jstr ("health")

/-- Per-line body of the extractor loop (`continue` ⇒ `none`). -/
def detectLine (line : String) : Option Todo :=
  match (bulletCapture line.data) <|> (numberCapture line.data) with
  | none => none
  | some capRaw =>
    let fullText : String := jsTrimS ⟨capRaw⟩
    let exerciseName : String :=
      match colonCapture fullText.data with
      | some cap => jsTrimS ⟨cap⟩
      | none =>
        let firstSentence := jsTrimS ⟨firstClauseL fullText.data⟩
        if 5 < firstSentence.length && firstSentence.length < 50 then firstSentence
        else if 50 < fullText.length then (⟨fullText.data.take 47⟩ : String) ++ "..." else fullText
    if 3 < exerciseName.length && exerciseName.length < 80 then
      if skipFragmentsTest exerciseName then none
      else some ⟨exerciseName, categoryOf (jsLower fullText)⟩
    else none

def detectExercisesFromResponse (responseText : String) : List Todo :=
  (splitLines responseText).filterMap detectLine

end MH

namespace MH

/-! ## Habit store (wellness-context.tsx 21-42, 232-296, 342-361) -/

structure HabitItem where
  id : String
  name : String
  completed : Bool
  streak : Nat
  category : JsValue
  dateCompleted : Option String
  dailyCompletions : List String
deriving DecidableEq

structure TodoItem where
  id : String
  title : JsValue
  completed : Bool
  category : JsValue
deriving DecidableEq

/-- `/^read(ing)?\s+(a\s+)?book/` (with the greedy optional groups
backtracking as in the host engine). -/
def matchReadBook (s : List Char) : Bool :=
  match dropLit (("read").data) s with
  | none => false
  | some r0 =>
    let tail := fun (r : List Char) =>
      match wsPlus1 r with
      | none => false
      | some r1 =>
        (match dropLit (("a").data) r1 with
         | some r2 =>
           match wsPlus1 r2 with
           | some r3 => (dropLit (("book").data) r3).isSome
           | none => false
         | none => false) || (dropLit (("book").data) r1).isSome
    (match dropLit (("ing").data) r0 with
     | some r1 => tail r1
     | none => false) || tail r0

/-- A pattern of the form `/^stem(suffix)?/`, equivalent to a plain
prefix test on the stem. -/
def matchStem (stem : String) (s : List Char) : Bool := (dropLit stem.data s).isSome

/-- The `variations` table of `addHabit` (wellness-context.tsx 248-258);
the `from` and `to` of each entry are the same pattern, so one matcher per row. -/
def variations : List (List Char → Bool) :=
  [matchReadBook,
   matchStem ("walk"),
   matchStem ("meditat"),
   matchStem ("journal"),
   matchStem ("breath"),
   matchStem ("hydrat"),
   matchStem ("exercis"),
   matchStem ("learn")]

/-- `split(/\s+/)` then `.filter(w => w.length > 2)`. -/
def wordsOf (s : String) : List String :=
  ((splitWs s.data).map (fun w => (⟨w⟩ : String))).filter (fun w => 2 < w.length)

/-- The per-habit similarity predicate inside `similarExists`
(wellness-context.tsx 241-282). -/
def habitSimilar (normalizedName : String) (h : HabitItem) : Bool :=
  let habitName := jsTrimS (jsLower h.name)
  if habitName == normalizedName then true
  else if variations.any (fun m => m normalizedName.data && m habitName.data) then true
  else
    let nameWords := wordsOf normalizedName
    let habitWords := wordsOf habitName
    if 0 < nameWords.length && 0 < habitWords.length then
      let commonWords := nameWords.filter (fun word =>
        habitWords.any (fun habitWord =>
          containsSub habitWord word || containsSub word habitWord))
      -- `similarity = common / max(...); similarity > 0.7`
      decide (mkRat 7 10 < mkRat commonWords.length (max nameWords.length habitWords.length))
    else false

/-- The dedup decision of `addHabit`: an exact match after
lower-casing/trimming, or a similar habit. -/
def addHabitDup (habits : List HabitItem) (name : String) : Bool :=
  let normalizedName := jsTrimS (jsLower name)
  habits.any (fun h => jsTrimS (jsLower h.name) == normalizedName) ||
    habits.any (fun h => habitSimilar normalizedName h)

/-- `addHabit` (wellness-context.tsx 232-296) as one call over the current
habit list; the fresh id (`Date.now() + random`) is an explicit input. -/
def addHabit (id : String) (habits : List HabitItem) (name : String)
    (category : JsValue := .jstr ("health")) : Bool × List HabitItem :=
  if addHabitDup habits name then (false, habits)
  else (true, habits ++ [⟨id, name, false, 0, category, none, []⟩])

structure AddResult where
  habits : List HabitItem
  todos : List TodoItem
  added : List String
  errored : Bool
deriving DecidableEq

/-- One raw item handed to `addTodos` (titles coming from the model path
are arbitrary runtime values). -/
structure TodoIn where
  title : JsValue
  category : JsValue
deriving DecidableEq

/-- The `forEach` of `addTodos` calling `addHabit` per item.  The dedup of
each call reads `check` (the habit list captured by the render closure) while
the appends accumulate in `acc`; `name.toLowerCase()` on a non-string
title raises the `TypeError` recorded in `errored`, aborting the loop. -/
def addLoop (gen : Nat → String) (check : List HabitItem) :
    Nat → List TodoIn → List HabitItem → List String → (List HabitItem × List String × Bool)
  | _, [], acc, added => (acc, added, false)
  | k, t :: rest, acc, added =>
    match t.title with
    | .jstr s =>
      if addHabitDup check s then addLoop gen check (k + 1) rest acc added
      else addLoop gen check (k + 1) rest (acc ++ [⟨gen k, s, false, 0, t.category, none, []⟩]) (added ++ [s])
    | _ => (acc, added, true)

/-- `addTodos` (wellness-context.tsx 342-361): mint ids and prepend the
todo mirror entries, then run the dedup-guarded `addHabit` loop, returning
the names actually added. -/
def addTodos (gen : Nat → String) (check acc : List HabitItem) (items : List TodoIn) : AddResult :=
  let withIds : List TodoItem :=
    (items.enum).map (fun p => ⟨gen (1000 + p.1), p.2.title, false, p.2.category⟩)
  let (habits', added, errored) := addLoop gen check 0 items acc []
  ⟨habits', withIds, added, errored⟩

end MH

namespace MH

/-! ## Habit-intent classifier (`analyzeHabitManagementRequest` /
`fallbackHabitAnalysis`, Dashboard.tsx 734-847) -/

/-- The raw analysis object.  The model path returns the parsed JSON value
unvalidated beyond `action`/`confidence` truthiness and the confidence
gate, so every field is a runtime value. -/
structure HabitAnalysis where
  action : JsValue
  habits : JsValue
  habitToRemove : JsValue
  habitToUpdate : JsValue
  confidence : JsValue
deriving DecidableEq

/-- Try each verb alternative (in order) as a prefix, followed by `\s+`,
then the continuation. -/
def tryVerbs (verbs : List String) (s : List Char) (k : List Char → Option α) : Option α :=
  match verbs with
  | [] => none
  | v :: rest =>
    (match dropLit v.data s with
     | some s1 =>
       match wsPlus1 s1 with
       | some s2 => k s2
       | none => none
     | none => none) <|> tryVerbs rest s k

/-- Greedy optional group `(?:w\s+)?`: try with the word first, then
without. -/
def optWord (w : String) (s : List Char) (k : List Char → Option α) : Option α :=
  (match dropLit w.data s with
   | some s1 =>
     match wsPlus1 s1 with
     | some s2 => k s2
     | none => none
   | none => none) <|> k s

/-- `(.+)` (greedy, `.` excludes the newline): the maximal newline-free
run from here, required nonempty. -/
def captureDot (s : List Char) : Option (List Char) :=
  match s with
  | [] => none
  | c :: _ => if c = '\n' then none else some (s.takeWhile (fun x => x ≠ '\n'))

/-- `/(?:want|need|start|begin|add|create|make)\s+(?:to\s+)?(?:a\s+)?(?:new\s+)?(?:habit|routine|practice)/.test(text)` -/
def matchAddRequest (l : List Char) : Bool :=
  (scanStarts (fun s =>
    tryVerbs (["want", "need", "start", "begin", "add", "create", "make"]) s (fun s1 =>
      optWord ("to") s1 (fun s2 =>
        optWord ("a") s2 (fun s3 =>
          optWord ("new") s3 (fun s4 =>
            if (dropLit (("habit").data) s4).isSome || (dropLit (("routine").data) s4).isSome ||
                (dropLit (("practice").data) s4).isSome then some () else none))))) l).isSome

/-- `text.match(/(?:remove|delete|stop|quit|drop)\s+(?:the\s+)?(?:habit\s+)?(?:of\s+)?(.+)/)`,
returning capture group 1 of the leftmost match. -/
def removeCapture (l : List Char) : Option (List Char) :=
  scanStarts (fun s =>
    tryVerbs (["remove", "delete", "stop", "quit", "drop"]) s (fun s1 =>
      optWord ("the") s1 (fun s2 =>
        optWord ("habit") s2 (fun s3 =>
          optWord ("of") s3 captureDot)))) l

/-- After the lazy capture of the update pattern:
`\s+(?:to|into)\s+(.+)`. -/
def updateJoin (s : List Char) : Option (List Char) :=
  match wsPlus1 s with
  | none => none
  | some s1 =>
    (match dropLit (("to").data) s1 with
     | some s2 =>
       match wsPlus1 s2 with
       | some s3 => captureDot s3
       | none => none
     | none => none) <|>
    (match dropLit (("into").data) s1 with
     | some s2 =>
       match wsPlus1 s2 with
       | some s3 => captureDot s3
       | none => none
     | none => none)

/-- Lazy `(.+?)` before `\s+(?:to|into)\s+(.+)`: grow the first capture one
character at a time (never across a newline) until the tail matches. -/
def lazyCap1 : List Char → List Char → Option (List Char × List Char)
  | [], _ => none
  | c :: rest, accRev =>
    if c = '\n' then none
    else
      match updateJoin rest with
      | some cap2 => some ((c :: accRev).reverse, cap2)
      | none => lazyCap1 rest (c :: accRev)

/-- `text.match(/(?:change|modify|update|edit)\s+(?:the\s+)?(?:habit\s+)?(?:of\s+)?(.+?)\s+(?:to|into)\s+(.+)/)`,
returning the two captures of the leftmost match. -/
def updateCapture (l : List Char) : Option (List Char × List Char) :=
  scanStarts (fun s =>
    tryVerbs (["change", "modify", "update", "edit"]) s (fun s1 =>
      optWord ("the") s1 (fun s2 =>
        optWord ("habit") s2 (fun s3 =>
          optWord ("of") s3 (fun s4 => lazyCap1 s4 []))))) l

/-- `fallbackHabitAnalysis` (Dashboard.tsx 804-847); `text` arrives already
lower-cased by the caller. -/
def fallbackHabitAnalysis (text : String) : HabitAnalysis :=
  let addHabits : List (String × String) :=
    (if containsAny text (["meditation", "meditate", "mindfulness"]) then [("Daily meditation", "mindfulness")] else []) ++
    (if containsAny text (["walk", "exercise", "workout", "gym"]) then [("Daily exercise", "exercise")] else []) ++
    (if containsAny text (["journal", "write", "reflect"]) then [("Daily journaling", "reflection")] else []) ++
    (if containsAny text (["read", "learn", "study"]) then [("Daily reading", "learning")] else []) ++
    (if containsAny text (["sleep", "eat", "drink", "water"]) then [("Healthy habits", "health")] else [])
  if matchAddRequest text.data && !addHabits.isEmpty then
    ⟨.jstr ("add"),
     .jarr (JsArr.ofList (addHabits.map (fun p =>
       .jobj (JsFields.ofList [("title", .jstr p.1), ("category", .jstr p.2)])))),
     .jundefined, .jundefined, .jnum (mkRat 8 10)⟩
  else
    match removeCapture text.data with
    | some cap => ⟨.jstr ("remove"), .jundefined, .jstr (jsTrimS ⟨cap⟩), .jundefined, .jnum (mkRat 85 100)⟩
    | none =>
      match updateCapture text.data with
      | some (c1, c2) =>
        ⟨.jstr ("update"), .jundefined, .jundefined,
         .jobj (JsFields.ofList [("oldTitle", .jstr (jsTrimS ⟨c1⟩)), ("newTitle", .jstr (jsTrimS ⟨c2⟩))]),
         .jnum (mkRat 8 10)⟩
      | none => ⟨.jstr ("none"), .jundefined, .jundefined, .jundefined, .jnum (mkRat 9 10)⟩

/-- `analyzeHabitManagementRequest` (Dashboard.tsx 734-801).  The model
path trusts the parsed object only when `parsed.action && parsed.confidence
&& parsed.confidence > 0.7`; every failure falls back to the rules. -/
def analyzeHabitManagementRequest (apiKey : Bool) (call : ModelCall) (userText : String) : HabitAnalysis :=
  let text := jsLower userText
  if apiKey = false then fallbackHabitAnalysis text
  else
    match call with
    | .errored => fallbackHabitAnalysis text
    | .returned none => fallbackHabitAnalysis text
    | .returned (some parsed) =>
      if jsTruthy (jsGet parsed ("action")) && jsTruthy (jsGet parsed ("confidence")) &&
          jsGT (jsGet parsed ("confidence")) (mkRat 7 10) then
        ⟨jsGet parsed ("action"), jsGet parsed ("habits"), jsGet parsed ("habitToRemove"),
         jsGet parsed ("habitToUpdate"), jsGet parsed ("confidence")⟩
      else fallbackHabitAnalysis text

end MH

namespace MH

/-! ## Habit-management branch (`handleHabitManagement`, Dashboard.tsx 849-947) -/

/-- The reply of the `catch` block of `handleHabitManagement`. -/
def habitErrorReply : String :=
  "I encountered an error while managing your habits. Please try again or let me know what you\x27d like to do."

structure HMOut where
  habits : List HabitItem
  todos : List TodoItem
  reply : Option String
  notifs : List (String × String)
deriving DecidableEq

/-- `handleHabitManagement` over the habit list captured by the render
(`habits0`); the reply is `none` when `responseText` stays empty (no
message is appended then). -/
def handleHabitManagement (gen : Nat → String) (habits0 : List HabitItem) (a : HabitAnalysis) : HMOut :=
  if a.action = .jstr ("add") then
    -- `if (analysis.habits && analysis.habits.length > 0)`
    if jsTruthy a.habits && jsGT (jsLength a.habits) 0 then
      match a.habits with
      | .jarr hs =>
        let items := hs.toList.map (fun h => (⟨jsGet h ("title"), jsGet h ("category")⟩ : TodoIn))
        let r := addTodos gen habits0 habits0 items
        if r.errored then ⟨r.habits, r.todos, some habitErrorReply, []⟩
        else if 0 < r.added.length then
          ⟨r.habits, r.todos,
           some ("✅ I\x27ve added " ++ toString r.added.length ++ " habit" ++
             (if 1 < r.added.length then "s" else "") ++ " to your tracker:\n" ++
             String.intercalate ("\n") (hs.toList.map (fun h => "• " ++ jsToString (jsGet h ("title")))) ++
             "\n\nThese are now part of your daily wellness routine!"),
           [("Added " ++ toString r.added.length ++ " new habit" ++
             (if 1 < r.added.length then "s" else "") ++ " to your tracker: " ++
             String.intercalate (", ") r.added, "success")]⟩
        else
          ⟨r.habits, r.todos,
           some ("All the habits you mentioned are already in your tracker. Great job staying consistent!"), []⟩
      | _ =>
        -- truthy non-array with a positive `.length`: `.map` raises, caught below
        ⟨habits0, [], some habitErrorReply, []⟩
    else ⟨habits0, [], none, []⟩
  else if a.action = .jstr ("remove") then
    if jsTruthy a.habitToRemove then
      match a.habitToRemove with
      | .jstr s =>
        match habits0.find? (fun h =>
            containsSub (jsLower h.name) (jsLower s) || containsSub (jsLower s) (jsLower h.name)) with
        | some h =>
          ⟨habits0.filter (fun x => x.id ≠ h.id), [],
           some ("✅ I\x27ve removed \"" ++ h.name ++ "\" from your habit tracker."),
           [("Removed \"" ++ h.name ++ "\" from your habit tracker", "success")]⟩
        | none =>
          ⟨habits0, [],
           some ("I couldn\x27t find a habit matching \"" ++ s ++ "\" in your tracker. Could you check the exact name?"), []⟩
      | _ =>
        -- `.toLowerCase()` on a non-string target raises inside the first
        -- `find` callback; with no habits the callback never runs
        if habits0.isEmpty then
          ⟨habits0, [],
           some ("I couldn\x27t find a habit matching \"" ++ jsToString a.habitToRemove ++ "\" in your tracker. Could you check the exact name?"), []⟩
        else ⟨habits0, [], some habitErrorReply, []⟩
    else ⟨habits0, [], none, []⟩
  else if a.action = .jstr ("update") then
    if jsTruthy a.habitToUpdate then
      match jsGet a.habitToUpdate ("oldTitle") with
      | .jstr oldT =>
        match habits0.find? (fun h =>
            containsSub (jsLower h.name) (jsLower oldT) || containsSub (jsLower oldT) (jsLower h.name)) with
        | some h =>
          let afterDelete := habits0.filter (fun x => x.id ≠ h.id)
          match jsGet a.habitToUpdate ("newTitle") with
          | .jstr newT =>
            -- `addHabit(newTitle, category || habitToUpdate.category)`: the
            -- dedup check runs against the captured list (still holding `h`),
            -- the append lands after the queued delete
            let cat := if jsTruthy (jsGet a.habitToUpdate ("category")) then
                jsGet a.habitToUpdate ("category")
              else h.category
            let habits' := if addHabitDup habits0 newT then afterDelete
              else afterDelete ++ [⟨gen 0, newT, false, 0, cat, none, []⟩]
            ⟨habits', [],
             some ("✅ I\x27ve updated your habit from \"" ++ h.name ++ "\" to \"" ++ newT ++ "\". Your progress has been preserved!"),
             [("Updated habit from \"" ++ h.name ++ "\" to \"" ++ newT ++ "\"", "success")]⟩
          | _ =>
            -- delete already queued; `addHabit` raises on the non-string title
            ⟨afterDelete, [], some habitErrorReply, []⟩
        | none =>
          ⟨habits0, [],
           some ("I couldn\x27t find a habit matching \"" ++ jsToString (jsGet a.habitToUpdate ("oldTitle")) ++ "\" in your tracker. Could you check the exact name?"), []⟩
      | _ =>
        if habits0.isEmpty then
          ⟨habits0, [],
           some ("I couldn\x27t find a habit matching \"" ++ jsToString (jsGet a.habitToUpdate ("oldTitle")) ++ "\" in your tracker. Could you check the exact name?"), []⟩
        else ⟨habits0, [], some habitErrorReply, []⟩
    else ⟨habits0, [], none, []⟩
  else ⟨habits0, [], none, []⟩

/-! ## Reply generation (`generateBotReply`, Dashboard.tsx 425-484) -/

/-- `generateBotReply`; `none` models the thrown error (missing API key or
a failed model call) that the `catch` of the caller turns into a canned reply.
The off-topic redirect fires before any of that. -/
def generateBotReply (apiKey : Bool) (replyCall : Option String) (userText : String) : Option String :=
  if isOffTopic userText then some offTopicReply
  else if apiKey = false then none
  else
    match replyCall with
    | none => none
    | some text =>
      -- Gentle crisis interjection if user text indicates urgent risk
      if crisisHit userText then some (crisisPreface ++ text) else some text

end MH

namespace MH

/-! ## Conversation orchestrator (`sendMessage`, Dashboard.tsx 949-1105) -/

/-- The affect alternation of the `meaningfulStress` gate
(Dashboard.tsx 981); it lists exactly the union of the four fallback
lexicons (with the duplicated spelling of one literal kept once). -/
def meaningfulWords : List String :=
  ["great", "awesome", "fantastic", "amazing", "grateful", "happy", "joyful", "calm", "relaxed", "peaceful", "good", "fine", "better", "optimistic", "content", "satisfied", "stressed", "anxious", "worried", "tense", "overwhelmed", "frustrated", "awful", "terrible", "horrible", "depressed", "panic", "extreme", "can\x27t cope"]

def meaningfulHit (t : String) : Bool := containsAny t meaningfulWords

structure StressOut where
  habits : List HabitItem
  todos : List TodoItem
  recorded : List JsValue
  notifs : List (String × String)
deriving DecidableEq

/-- Lines 979-1043 of `sendMessage`: the meaningful-signal gate, the
stress entry, and the habit insertion plus notification for high stress
(the dead `hasClearStressReason`/`shouldSuggestHabits` bindings are
omitted; the `catch (habitError)` branch is unreachable because every
title handed to `addTodos` here is a string). -/
def stressStage (gen : Nat → String) (habits0 : List HabitItem) (analysis : Analyzed)
    (meaningful : Bool) : StressOut :=
  if meaningful then
    let recorded := [analysis.stressLevel]
    if analysis.stressLevel = .jstr ("high") || analysis.stressLevel = .jstr ("very-high") then
      let acts := if analysis.todos.length = 0 then generateStressReliefActivities else analysis.todos
      let r := addTodos gen habits0 habits0 (acts.map (fun t => ⟨.jstr t.title, t.category⟩))
      let notifs :=
        if 0 < r.added.length then
          [("I\x27ve added " ++ toString r.added.length ++
            " stress relief activities to your habit tracker to help you manage your stress: " ++
            String.intercalate (", ") r.added, "success")]
        else if 0 < acts.length then
          [("I suggested " ++ toString acts.length ++
            " stress relief activities, but they were already in your tracker", "info")]
        else []
      ⟨r.habits, r.todos, recorded, notifs⟩
    else if analysis.stressLevel = .jstr ("very-low") || analysis.stressLevel = .jstr ("low") then
      ⟨habits0, [], recorded,
       [("Great to hear you\x27re feeling " ++
         (if analysis.stressLevel = .jstr ("very-low") then "very relaxed" else "relaxed") ++
         "! Keep up the positive energy.", "success")]⟩
    else if analysis.stressLevel = .jstr ("moderate") then
      ⟨habits0, [], recorded,
       [("I notice you might be experiencing some stress. Remember to take care of yourself today.", "info")]⟩
    else ⟨habits0, [], recorded, []⟩
  else ⟨habits0, [], [], []⟩

structure StageOut where
  habits : List HabitItem
  todos : List TodoItem
  notifs : List (String × String)
deriving DecidableEq

/-- Lines 1047-1079 of `sendMessage`: extract exercises from the reply,
fall back to the fixed pool on an explicit exercise request, and insert
via the dedup-guarded path.  `snapshot` is the habit list captured by the
render closure (the dedup reference), `acc` the list accumulated so far
this turn. -/
def exerciseStage (gen : Nat → String) (snapshot acc : List HabitItem) (userText reply : String) :
    StageOut :=
  let detectedExercises := detectExercisesFromResponse reply
  let exercisesToAdd :=
    if detectedExercises.length = 0 && isExerciseRequest userText then
      generateStressReliefActivities
    else detectedExercises
  if 0 < exercisesToAdd.length then
    let r := addTodos gen snapshot acc (exercisesToAdd.map (fun ex => ⟨.jstr ex.title, ex.category⟩))
    let notifs :=
      if 0 < r.added.length then
        [("I\x27ve automatically added " ++ toString r.added.length ++ " exercise" ++
          (if 1 < r.added.length then "s" else "") ++ " to your habit tracker: " ++
          String.intercalate (", ") r.added, "success")]
      else
        [("I suggested " ++ toString exercisesToAdd.length ++ " exercise" ++
          (if 1 < exercisesToAdd.length then "s" else "") ++ ", but they were already in your tracker", "info")]
    ⟨r.habits, r.todos, notifs⟩
  else ⟨acc, [], []⟩

/-- The per-turn external environment: service credential presence, the
outcomes of the two classification calls and of the reply call, the
random canned-reply index, and the `Date.now()`/`Math.random()` id source. -/
structure TurnEnv where
  apiKey : Bool
  habitCall : ModelCall
  analyzeCall : ModelCall
  replyCall : Option String
  cannedIdx : Nat
  gen : Nat → String

/-- Observable outcome of one `sendMessage` turn: the habit list, the todo
mirror entries added, the stress levels recorded, the bot reply appended
(`none` when no bot message is appended), and the notifications emitted. -/
structure TurnOut where
  habits : List HabitItem
  todos : List TodoItem
  stressRecorded : List JsValue
  reply : Option String
  notifs : List (String × String)
deriving DecidableEq

/-- One traversal of `sendMessage` (Dashboard.tsx 949-1105) over the habit
list captured at render time.  An empty (post-trim) draft returns without
doing anything; a habit-management intent short-circuits the turn; the
`catch` around the pipeline substitutes a random canned reply when
`generateBotReply` throws. -/
def sendMessage (env : TurnEnv) (habits0 : List HabitItem) (raw : String) : TurnOut :=
  if jsTrimS raw = "" then ⟨habits0, [], [], none, []⟩
  else
    let text := jsTrimS raw
    let habitAnalysis := analyzeHabitManagementRequest env.apiKey env.habitCall text
    if habitAnalysis.action ≠ .jstr ("none") then
      let hm := handleHabitManagement env.gen habits0 habitAnalysis
      ⟨hm.habits, hm.todos, [], hm.reply, hm.notifs⟩
    else
      let analysis := analyzeUserText env.apiKey env.analyzeCall text
      let meaningfulStress :=
        !(analysis.stressLevel == .jstr ("moderate")) || meaningfulHit (jsLower text)
      let st := stressStage env.gen habits0 analysis meaningfulStress
      match generateBotReply env.apiKey env.replyCall text with
      | none =>
        let fallback := botResponses.getD (env.cannedIdx % botResponses.length) ("")
        ⟨st.habits, st.todos, st.recorded, some fallback, st.notifs⟩
      | some reply =>
        let ex := exerciseStage env.gen habits0 st.habits text reply
        ⟨ex.habits, st.todos ++ ex.todos, st.recorded, some reply, st.notifs ++ ex.notifs⟩

end MH

namespace MH

/-! ## Helper lemmas -/

lemma dropWhile_dropWhile (p : α → Bool) (l : List α) :
    (l.dropWhile p).dropWhile p = l.dropWhile p := by
  induction l with
  | nil => rfl
  | cons a t ih =>
    by_cases h : p a
    · simp [List.dropWhile_cons, h, ih]
    · simp [List.dropWhile_cons, h]

lemma eq_cons_dropWhile_false {p : α → Bool} {a : α} {t l : List α}
    (h : l.dropWhile p = a :: t) : p a = false := by
  have hh := List.head?_dropWhile_not p l
  rw [h] at hh
  simpa using hh

lemma dropWhile_eq_self_of_leading {p : α → Bool} {l m : List α}
    (hm : m <+: l) (h : l.dropWhile p = l) : m.dropWhile p = m := by
  cases m with
  | nil => rfl
  | cons b u =>
    cases l with
    | nil =>
      obtain ⟨s, hs⟩ := hm
      simp at hs
    | cons c r =>
      obtain ⟨s, hs⟩ := hm
      have hbc : b = c := by
        have := congrArg List.head? hs
        simpa using this
      have hc : p c = false := eq_cons_dropWhile_false h
      subst hbc
      simp [List.dropWhile_cons, hc]

lemma ltrim_idem (l : List Char) : ltrimL (ltrimL l) = ltrimL l :=
  dropWhile_dropWhile _ _

lemma rtrim_idem (l : List Char) : rtrimL (rtrimL l) = rtrimL l := by
  unfold rtrimL
  rw [List.reverse_reverse, dropWhile_dropWhile]

lemma rtrim_isPrefixOf (l : List Char) : rtrimL l <+: l := by
  unfold rtrimL
  conv_rhs => rw [← List.reverse_reverse l]
  exact List.reverse_prefix.mpr (List.dropWhile_suffix _)

lemma trim_idem_L (l : List Char) : trimL (trimL l) = trimL l := by
  unfold trimL
  have h2 : ltrimL (rtrimL (ltrimL l)) = rtrimL (ltrimL l) :=
    dropWhile_eq_self_of_leading (rtrim_isPrefixOf (ltrimL l)) (ltrim_idem l)
  rw [h2, rtrim_idem]

lemma jsTrimS_idem (s : String) : jsTrimS (jsTrimS s) = jsTrimS s := by
  unfold jsTrimS
  exact congrArg String.mk (trim_idem_L s.data)

lemma containsAny_sub {t : String} {ws bigger : List String}
    (hsub : ∀ w ∈ ws, w ∈ bigger) (h : containsAny t bigger = false) :
    containsAny t ws = false := by
  unfold containsAny at *
  rw [List.any_eq_false] at *
  intro w hw
  exact h w (hsub w hw)

lemma coerceTodos_length (items : List JsValue) : (coerceTodos items).length ≤ 5 :=
  calc (coerceTodos items).length
      ≤ ((items.take 5).map _).length := List.length_filter_le _ _
    _ = (items.take 5).length := List.length_map _ _
    _ ≤ 5 := List.length_take_le 5 items

lemma coerceTodos_mem {items : List JsValue} :
    ∀ t ∈ coerceTodos items,
      t.title ≠ "" ∧ jsTrimS t.title = t.title ∧ jsTruthy t.category = true := by
  intro t ht
  unfold coerceTodos at ht
  have h1 := List.of_mem_filter ht
  have h2 := List.mem_of_mem_filter ht
  obtain ⟨x, hx, rfl⟩ := List.mem_map.mp h2
  simp only [decide_eq_true_eq] at h1
  dsimp only at h1 ⊢
  refine ⟨?_, jsTrimS_idem _, ?_⟩
  · intro hemp
    rw [hemp] at h1
    simp at h1
  · by_cases hc : jsTruthy (jsGet x ("category")) = true
    · simp [hc]
    · simp only [Bool.not_eq_true] at hc
      simp only [hc]
      rw [if_neg (by decide)]
      decide

lemma fallbackAnalyze_todos_cases (text : String) :
    (fallbackAnalyze text).todos = [] ∨
    (fallbackAnalyze text).todos =
      [⟨"Take 3 deep breaths slowly", .jstr ("mindfulness")⟩,
       ⟨"Step outside for fresh air", .jstr ("health")⟩] := by
  unfold fallbackAnalyze
  dsimp only
  by_cases h : (fallbackStressLevel (jsLower text) = JsValue.jstr ("high") ||
      fallbackStressLevel (jsLower text) = JsValue.jstr ("very-high")) = true
  · right
    rw [if_pos h]
    rfl
  · left
    rw [if_neg h]
    rfl

end MH

namespace MH

/-! ## Claim C10 -/

/-- C10: `addHabit` is atomic and frame-preserving on the habit list: for
every habit list and every (name, category) input, a `false` return leaves
the list unchanged; a `true` return appends exactly one record at the end
carrying the given name, the given category (defaulting to "health"),
`completed = false`, `streak = 0` and an empty `dailyCompletions` array,
with every pre-existing record untouched. -/
theorem c10_addHabit_frame :
    ∀ (id : String) (habits : List HabitItem) (name : String) (category : JsValue),
      ((addHabit id habits name category).1 = false →
        (addHabit id habits name category).2 = habits) ∧
      ((addHabit id habits name category).1 = true →
        (addHabit id habits name category).2 =
          habits ++ [⟨id, name, false, 0, category, none, []⟩]) ∧
      addHabit id habits name = addHabit id habits name (.jstr ("health")) := by
  intro id habits name category
  refine ⟨?_, ?_, rfl⟩ <;> by_cases h : addHabitDup habits name <;> simp [addHabit, h]

/-- C10 witness: a concrete successful insert. -/
theorem c10_witness :
    (addHabit ("7") [] ("Yoga Time") (.jstr ("exercise"))).2 =
      [⟨"7", "Yoga Time", false, 0, .jstr ("exercise"), none, []⟩] :=
  ((c10_addHabit_frame ("7") [] ("Yoga Time") (.jstr ("exercise"))).2.1 (by decide)).trans
    (by decide)

/-! ## Claim C7 -/

/-- C7: the rule-based fallback maps "I’m so stressed" (negative-affect
token, no explicit-cause token) to "moderate" and "I’m so stressed about
my work deadline" to "high"; in general the classifier yields "high" only
when a cause token is present, and on the negative-lexicon branch (no
positive/mild hit, which are checked first) it yields exactly "high" with
a cause and "moderate" without one. -/
theorem c7_cause_gating :
    (fallbackAnalyze ("I\x27m so stressed")).stressLevel = .jstr ("moderate") ∧
    (fallbackAnalyze ("I\x27m so stressed about my work deadline")).stressLevel = .jstr ("high") ∧
    (∀ t : String, (fallbackAnalyze t).stressLevel = .jstr ("high") →
      causeHit (jsLower t) = true) ∧
    (∀ t : String, negHit (jsLower t) = true → posHit (jsLower t) = false →
      mildHit (jsLower t) = false →
      (fallbackAnalyze t).stressLevel =
        (if causeHit (jsLower t) then JsValue.jstr ("high") else JsValue.jstr ("moderate"))) := by
  refine ⟨by decide, by decide, ?_, ?_⟩
  · intro t h
    have hst : (fallbackAnalyze t).stressLevel = fallbackStressLevel (jsLower t) := rfl
    rw [hst] at h
    unfold fallbackStressLevel at h
    split_ifs at h <;> first | assumption | exact absurd h (by decide)
  · intro t hn hp hm
    have hst : (fallbackAnalyze t).stressLevel = fallbackStressLevel (jsLower t) := rfl
    rw [hst]
    unfold fallbackStressLevel
    rw [if_neg (by simp [hp]), if_neg (by simp [hm]), if_pos (by simp [hn])]

/-- C7 witness: the negative-branch rule applied at a concrete causeless
anxious text. -/
theorem c7_witness :
    (fallbackAnalyze ("i feel anxious right now")).stressLevel = .jstr ("moderate") :=
  ((c7_cause_gating.2.2.2 ("i feel anxious right now") (by decide) (by decide) (by decide))).trans
    (by decide)

/-! ## Claim C3 -/

/-- The "Morning Meditation" seed habit (wellness-context.tsx 104-117,
completion dates irrelevant to dedup). -/
def morningMeditation : HabitItem :=
  ⟨"1", "Morning Meditation", false, 5, .jstr ("mindfulness"), none, []⟩

/-- C3 counterexample: with "Morning Meditation" present, the dedup-guarded
add of the single candidate "Daily Meditation" does NOT treat it as the
same habit — the insert goes through and one newly-added name is
reported, not zero (the meditation synonym pattern `/^meditat(ion|ing)?/`
is anchored to the start of the name and matches neither). -/
theorem c3_counterexample :
    (addTodos (fun n => toString n) [morningMeditation] [morningMeditation]
        [⟨.jstr ("Daily Meditation"), .jstr ("mindfulness")⟩]).added =
      [("Daily Meditation" : String)] ∧
    (addTodos (fun n => toString n) [morningMeditation] [morningMeditation]
        [⟨.jstr ("Daily Meditation"), .jstr ("mindfulness")⟩]).habits.length = 2 := by
  decide

/-- C3 amended: when a habit named "Morning Meditation" already exists,
the dedup-guarded add of the single candidate "Daily Meditation" is NOT
deduplicated: the synonym patterns are anchored to the leading phrase of a
name and match neither name, the token-overlap ratio is 1/2 ≤ 0.7, so the
candidate is inserted and reported as the one newly-added name. -/
theorem c3_amended :
    ∀ gen : Nat → String,
      addHabitDup [morningMeditation] ("Daily Meditation") = false ∧
      (addTodos gen [morningMeditation] [morningMeditation]
          [⟨.jstr ("Daily Meditation"), .jstr ("mindfulness")⟩]).added =
        [("Daily Meditation" : String)] ∧
      (addTodos gen [morningMeditation] [morningMeditation]
          [⟨.jstr ("Daily Meditation"), .jstr ("mindfulness")⟩]).habits =
        [morningMeditation,
         ⟨gen 0, "Daily Meditation", false, 0, .jstr ("mindfulness"), none, []⟩] := by
  intro gen
  have hd : addHabitDup [morningMeditation] ("Daily Meditation") = false := by decide
  refine ⟨hd, ?_, ?_⟩ <;> simp [addTodos, addLoop, hd]

end MH

namespace MH

/-! ## Claim C4 -/

/-- C4 counterexample: a parsed payload whose required `stressLevel` field
has the wrong type (the number 5, not one of the five enum strings) passes
the truthiness-only validation, so `analyzeUserText` returns it instead of
the rule-based fallback result. -/
def c4v : JsValue :=
  .jobj (JsFields.ofList
    [("stressLevel", .jnum (mkRat 5 1)),
     ("todos", .jarr (JsArr.ofList [.jobj (JsFields.ofList [("title", .jstr ("x"))])]))])

theorem c4_counterexample :
    jsGet c4v ("stressLevel") = .jnum (mkRat 5 1) ∧
    (analyzeUserText true (.returned (some c4v)) ("hello")).stressLevel = .jnum (mkRat 5 1) ∧
    analyzeUserText true (.returned (some c4v)) ("hello") ≠ fallbackAnalyze ("hello") := by
  decide

/-- C4 amended: the model-backed stress/activity classification never
raises and returns exactly the rule-based fallback result under any of:
no service credential, service call error or elapsed timeout, a response
with no parseable JSON, a falsy/missing `stressLevel`, or a `todos` field
that is not an array.  (A truthy `stressLevel` of the wrong type is NOT
detected: only truthiness is checked, see the counterexample.) -/
theorem c4_failclosed :
    ∀ (apiKey : Bool) (call : ModelCall) (text : String),
      (apiKey = false ∨ call = .errored ∨ call = .returned none ∨
        (∃ v, call = .returned (some v) ∧
          (jsTruthy (jsGet v ("stressLevel")) = false ∨
           ∀ items : JsArr, jsGet v ("todos") ≠ .jarr items))) →
      analyzeUserText apiKey call text = fallbackAnalyze text := by
  intro apiKey call text h
  rcases h with h | h | h | ⟨v, hcall, hv⟩
  · subst h; rfl
  · subst h
    cases apiKey <;> rfl
  · subst h
    cases apiKey <;> rfl
  · subst hcall
    cases apiKey with
    | false => rfl
    | true =>
      unfold analyzeUserText
      dsimp only
      rcases hv with hv | hv
      · rw [if_neg (by decide), if_pos hv]
      · by_cases hsl : jsTruthy (jsGet v ("stressLevel")) = false
        · rw [if_neg (by decide), if_pos hsl]
        · rw [if_neg (by decide), if_neg hsl]
          cases hjt : jsGet v ("todos") with
          | jarr items => exact absurd hjt (hv items)
          | jundefined => rfl
          | jnull => rfl
          | jbool b => rfl
          | jnum n => rfl
          | jstr s => rfl
          | jobj fs => rfl

/-- C4 witness: the missing-credential failure mode at a concrete text. -/
theorem c4_witness :
    analyzeUserText false .errored ("hi") = fallbackAnalyze ("hi") :=
  c4_failclosed false .errored ("hi") (Or.inl rfl)

/-! ## Claim C5 -/

/-- C5 counterexample: a successfully parsed payload carrying the truthy
but invalid category "banana" is passed through unchanged — "health" is
NOT substituted for an invalid (merely for a falsy) category. -/
def c5v : JsValue :=
  .jobj (JsFields.ofList
    [("stressLevel", .jstr ("moderate")),
     ("todos", .jarr (JsArr.ofList
       [.jobj (JsFields.ofList [("title", .jstr ("x")), ("category", .jstr ("banana"))])]))])

theorem c5_counterexample :
    (analyzeUserText true (.returned (some c5v)) ("hello")).todos =
      [⟨"x", .jstr ("banana")⟩] ∧
    (JsValue.jstr ("banana") ∉
      [JsValue.jstr ("mindfulness"), JsValue.jstr ("health"), JsValue.jstr ("reflection"),
       JsValue.jstr ("exercise"), JsValue.jstr ("learning")]) := by
  decide

/-- C5 amended: whatever the classification path, the resulting activity
list has at most 5 items, every item has a trimmed non-empty title and a
truthy category ("health" is substituted only when the provided category
is absent or otherwise falsy; a truthy invalid category passes through
unvalidated, see the counterexample); and when the model payload validates
but trimming/capping leaves zero items, the activity list equals the
activity list of the rule-based fallback for that text. -/
theorem c5_schema :
    ∀ (apiKey : Bool) (call : ModelCall) (text : String),
      ((analyzeUserText apiKey call text).todos.length ≤ 5 ∧
       ∀ t ∈ (analyzeUserText apiKey call text).todos,
         t.title ≠ "" ∧ jsTrimS t.title = t.title ∧ jsTruthy t.category = true) ∧
      (∀ parsed : JsValue, ∀ items : JsArr,
        apiKey = true → call = .returned (some parsed) →
        jsTruthy (jsGet parsed ("stressLevel")) = true →
        jsGet parsed ("todos") = .jarr items →
        coerceTodos items.toList = [] →
        (analyzeUserText apiKey call text).todos = (fallbackAnalyze text).todos) := by
  intro apiKey call text
  have hfb : (fallbackAnalyze text).todos.length ≤ 5 ∧
      ∀ t ∈ (fallbackAnalyze text).todos,
        t.title ≠ "" ∧ jsTrimS t.title = t.title ∧ jsTruthy t.category = true := by
    rcases fallbackAnalyze_todos_cases text with h | h <;> rw [h]
    · exact ⟨by decide, by decide⟩
    · exact ⟨by decide, by decide⟩
  constructor
  · have hshape : (analyzeUserText apiKey call text).todos = (fallbackAnalyze text).todos ∨
        ∃ items : List JsValue,
          (analyzeUserText apiKey call text).todos = coerceTodos items ∧
          coerceTodos items ≠ [] := by
      unfold analyzeUserText
      dsimp only
      split
      · left; rfl
      · split
        · left; rfl
        · left; rfl
        · split
          · left; rfl
          · split
            · next items _ =>
              by_cases hz : (coerceTodos items.toList).length = 0
              · left
                simp [hz]
              · right
                refine ⟨items.toList, by simp [hz], ?_⟩
                intro hnil
                rw [hnil] at hz
                exact hz rfl
            · left; rfl
    rcases hshape with h | ⟨items, h, _⟩
    · rw [h]; exact hfb
    · rw [h]
      exact ⟨coerceTodos_length items, coerceTodos_mem⟩
  · intro parsed items hkey hcall hsl htd hz
    subst hkey hcall
    unfold analyzeUserText
    dsimp only
    rw [if_neg (by decide), if_neg (by simp [hsl]), htd]
    dsimp only
    rw [hz]
    simp

/-- C5 witness: a payload whose only item title trims to empty, so the
cap leaves zero items and the fallback activity list is used. -/
def c5wv : JsValue :=
  .jobj (JsFields.ofList
    [("stressLevel", .jstr ("high")),
     ("todos", .jarr (JsArr.ofList [.jobj (JsFields.ofList [("title", .jstr ("   "))])]))])

theorem c5_witness :
    (analyzeUserText true (.returned (some c5wv)) ("hello")).todos =
      (fallbackAnalyze ("hello")).todos :=
  (c5_schema true (.returned (some c5wv)) ("hello")).2 c5wv
    (JsArr.ofList [.jobj (JsFields.ofList [("title", .jstr ("   "))])])
    rfl rfl (by decide) (by decide) (by decide)

end MH

namespace MH

/-! ## Claim C8 -/

/-- C8: whenever the habit-intent classification returns an action other
than "none", only the habit-management branch executes for that turn: the
result is exactly the output of the habit branch, and in particular no stress
entry is recorded — even when the same message also carries emotional
content (the text is universally quantified). -/
theorem c8_habit_precedence :
    ∀ (env : TurnEnv) (habits0 : List HabitItem) (raw : String),
      jsTrimS raw ≠ "" →
      (analyzeHabitManagementRequest env.apiKey env.habitCall (jsTrimS raw)).action ≠
        .jstr ("none") →
      (sendMessage env habits0 raw).stressRecorded = [] ∧
      sendMessage env habits0 raw =
        ⟨(handleHabitManagement env.gen habits0
            (analyzeHabitManagementRequest env.apiKey env.habitCall (jsTrimS raw))).habits,
         (handleHabitManagement env.gen habits0
            (analyzeHabitManagementRequest env.apiKey env.habitCall (jsTrimS raw))).todos,
         [],
         (handleHabitManagement env.gen habits0
            (analyzeHabitManagementRequest env.apiKey env.habitCall (jsTrimS raw))).reply,
         (handleHabitManagement env.gen habits0
            (analyzeHabitManagementRequest env.apiKey env.habitCall (jsTrimS raw))).notifs⟩ := by
  intro env habits0 raw hne hact
  have hsm : sendMessage env habits0 raw =
      ⟨(handleHabitManagement env.gen habits0
          (analyzeHabitManagementRequest env.apiKey env.habitCall (jsTrimS raw))).habits,
       (handleHabitManagement env.gen habits0
          (analyzeHabitManagementRequest env.apiKey env.habitCall (jsTrimS raw))).todos,
       [],
       (handleHabitManagement env.gen habits0
          (analyzeHabitManagementRequest env.apiKey env.habitCall (jsTrimS raw))).reply,
       (handleHabitManagement env.gen habits0
          (analyzeHabitManagementRequest env.apiKey env.habitCall (jsTrimS raw))).notifs⟩ := by
    unfold sendMessage
    rw [if_neg hne]
    dsimp only
    rw [if_pos hact]
  exact ⟨by rw [hsm], hsm⟩

/-- C8 witness: a habit-add request (rule-based path) records no stress
entry and only mutates habits through the habit branch. -/
theorem c8_witness :
    (sendMessage ⟨false, .errored, .errored, none, 0, fun n => toString n⟩ []
        ("I want to add a new habit of meditation")).stressRecorded = [] :=
  (c8_habit_precedence ⟨false, .errored, .errored, none, 0, fun n => toString n⟩ []
      ("I want to add a new habit of meditation") (by decide) (by decide)).1

end MH

namespace MH

/-! ## Claim C1 -/

def c1env : TurnEnv := ⟨false, .errored, .errored, none, 0, fun n => toString n⟩

set_option maxRecDepth 100000 in
/-- C1 counterexample: the user text "I want to kill myself" contains
"kill myself", yet with no API key configured the turn ends in the canned
fallback reply (the first entry of `botResponses`), which does not begin
with the safety preface — the crisis check lives only on the successful
model path of `generateBotReply`. -/
theorem c1_counterexample :
    containsSub ("I want to kill myself") ("kill myself") = true ∧
    (sendMessage c1env [] ("I want to kill myself")).reply =
      some (botResponses.getD 0 ("")) ∧
    strStartsWith (botResponses.getD 0 ("")) crisisPreface = false := by
  decide

/-- C1 amended: the safety preface is prepended exactly on the
model-generated path: when the habit branch is not taken, the text is not
off-topic, the credential is present and the model reply succeeds, a
crisis-matching user text yields a reply that is the preface followed by
the model body; the off-topic redirect and the canned fallback replies
never begin with the preface. -/
theorem c1_crisis_model_path :
    (∀ (env : TurnEnv) (habits0 : List HabitItem) (raw t : String),
      jsTrimS raw ≠ "" →
      (analyzeHabitManagementRequest env.apiKey env.habitCall (jsTrimS raw)).action =
        .jstr ("none") →
      isOffTopic (jsTrimS raw) = false →
      env.apiKey = true →
      env.replyCall = some t →
      crisisHit (jsTrimS raw) = true →
      (sendMessage env habits0 raw).reply = some (crisisPreface ++ t)) ∧
    (∀ r ∈ botResponses, strStartsWith r crisisPreface = false) ∧
    strStartsWith offTopicReply crisisPreface = false := by
  refine ⟨?_, by decide, by decide⟩
  intro env habits0 raw t hne hact hoff hkey hcall hcrisis
  have hgen : generateBotReply env.apiKey env.replyCall (jsTrimS raw) =
      some (crisisPreface ++ t) := by
    unfold generateBotReply
    rw [if_neg (by simp [hoff]), hkey, if_neg (by decide), hcall]
    dsimp only
    rw [if_pos (by simp [hcrisis])]
  unfold sendMessage
  rw [if_neg hne]
  dsimp only
  rw [if_neg (by simp [hact]), hgen]

/-- C1 witness: a crisis text on the successful model path gets the
preface prepended. -/
theorem c1_witness :
    (sendMessage ⟨true, .errored, .errored, some ("hello"), 0, fun n => toString n⟩ []
        ("kill myself")).reply = some (crisisPreface ++ "hello") :=
  c1_crisis_model_path.1 ⟨true, .errored, .errored, some ("hello"), 0, fun n => toString n⟩ []
    ("kill myself") ("hello") (by decide) (by decide) (by decide) rfl rfl (by decide)

/-! ## Claim C2 -/

def c2env : TurnEnv := ⟨false, .errored, .errored, none, 0, fun n => toString n⟩

set_option maxRecDepth 100000 in
/-- C2 counterexample: "I am stressed about my car" contains the off-topic
keyword "car", yet the turn does NOT bypass classification: the fallback
classifier runs ("stressed" is an affect token) and a "moderate" stress
entry is recorded for the turn, contradicting the claimed short-circuit. -/
theorem c2_counterexample :
    isOffTopic ("I am stressed about my car") = true ∧
    (sendMessage c2env [] ("I am stressed about my car")).stressRecorded =
      [.jstr ("moderate")] := by
  decide

/-- C2 amended: the off-topic filter runs inside reply generation, not
before classification: for every off-topic message whose habit-intent
classification is "none", the reply is the fixed redirect (whatever the
credential or model outcome), but habit-intent and stress/activity
classification still run for the turn and may record a stress entry (see
the counterexample). -/
theorem c2_offtopic_redirect :
    ∀ (env : TurnEnv) (habits0 : List HabitItem) (raw : String),
      jsTrimS raw ≠ "" →
      (analyzeHabitManagementRequest env.apiKey env.habitCall (jsTrimS raw)).action =
        .jstr ("none") →
      isOffTopic (jsTrimS raw) = true →
      (sendMessage env habits0 raw).reply = some offTopicReply := by
  intro env habits0 raw hne hact hoff
  have hgen : generateBotReply env.apiKey env.replyCall (jsTrimS raw) = some offTopicReply := by
    unfold generateBotReply
    rw [if_pos (by simp [hoff])]
  unfold sendMessage
  rw [if_neg hne]
  dsimp only
  rw [if_neg (by simp [hact]), hgen]

/-- C2 witness: an off-topic question gets the fixed redirect reply. -/
theorem c2_witness :
    (sendMessage ⟨false, .errored, .errored, none, 0, fun n => toString n⟩ []
        ("tell me about politics")).reply = some offTopicReply :=
  c2_offtopic_redirect ⟨false, .errored, .errored, none, 0, fun n => toString n⟩ []
    ("tell me about politics") (by decide) (by decide) (by decide)

end MH

namespace MH

/-! ## Claim C6 -/

/-- A live-model environment whose stress-analysis call returns the level
"high" with one activity. -/
def c6env : TurnEnv :=
  ⟨true, .returned none,
   .returned (some (.jobj (JsFields.ofList
     [("stressLevel", .jstr ("high")),
      ("todos", .jarr (JsArr.ofList [.jobj (JsFields.ofList [("title", .jstr ("x"))])]))]))),
   some ("ok"), 0, fun n => toString n⟩

set_option maxRecDepth 100000 in
/-- C6 counterexample: "the sky is blue today" contains no affect-lexicon
token and the rule-based fallback does classify it as "moderate" — yet the
orchestrator still records a stress entry for the turn when the live model
returns a non-moderate level: the gate is
`analysis.stressLevel !== "moderate" || affect-hit`, and the analysis is
not necessarily the fallback result. -/
theorem c6_counterexample :
    meaningfulHit (jsLower ("the sky is blue today")) = false ∧
    (fallbackAnalyze ("the sky is blue today")).stressLevel = .jstr ("moderate") ∧
    (sendMessage c6env [] ("the sky is blue today")).stressRecorded = [.jstr ("high")] := by
  decide

/-- C6 amended: for every user text containing no affect-lexicon token,
the rule-based fallback yields stressLevel "moderate" with no activities,
and a turn whose effective classification is that fallback result (the
model unavailable, failed, or otherwise deferring to the rules) records no
stress entry; when a live model returns a non-moderate level for such a
text, the entry IS recorded (see the counterexample). -/
theorem c6_no_affect_no_entry :
    ∀ (env : TurnEnv) (habits0 : List HabitItem) (raw : String),
      meaningfulHit (jsLower (jsTrimS raw)) = false →
      analyzeUserText env.apiKey env.analyzeCall (jsTrimS raw) = fallbackAnalyze (jsTrimS raw) →
      fallbackAnalyze (jsTrimS raw) = ⟨.jstr ("moderate"), []⟩ ∧
      (sendMessage env habits0 raw).stressRecorded = [] := by
  intro env habits0 raw hmean hfb
  have hp : posHit (jsLower (jsTrimS raw)) = false := containsAny_sub (by decide) hmean
  have hm2 : mildHit (jsLower (jsTrimS raw)) = false := containsAny_sub (by decide) hmean
  have hn : negHit (jsLower (jsTrimS raw)) = false := containsAny_sub (by decide) hmean
  have hs : sevHit (jsLower (jsTrimS raw)) = false := containsAny_sub (by decide) hmean
  have hsl : fallbackStressLevel (jsLower (jsTrimS raw)) = .jstr ("moderate") := by
    unfold fallbackStressLevel
    rw [if_neg (by simp [hp]), if_neg (by simp [hm2]), if_neg (by simp [hn]),
      if_neg (by simp [hs])]
  have hfa : fallbackAnalyze (jsTrimS raw) = ⟨.jstr ("moderate"), []⟩ := by
    unfold fallbackAnalyze
    dsimp only
    rw [hsl, if_neg (by decide)]
    rfl
  refine ⟨hfa, ?_⟩
  unfold sendMessage
  by_cases hemp : jsTrimS raw = ""
  · rw [if_pos hemp]
  · rw [if_neg hemp]
    dsimp only
    by_cases hact : (analyzeHabitManagementRequest env.apiKey env.habitCall
        (jsTrimS raw)).action ≠ .jstr ("none")
    · rw [if_pos hact]
    · rw [if_neg hact]
      rw [hfb, hfa]
      dsimp only
      rw [hmean]
      cases hg : generateBotReply env.apiKey env.replyCall (jsTrimS raw) <;> rfl

/-- C6 witness: a neutral text (no affect token) on the fallback path
records nothing and classifies as moderate. -/
theorem c6_witness :
    (sendMessage ⟨false, .errored, .errored, none, 0, fun n => toString n⟩ []
        ("the sky is blue today")).stressRecorded = [] :=
  (c6_no_affect_no_entry ⟨false, .errored, .errored, none, 0, fun n => toString n⟩ []
      ("the sky is blue today") (by decide) rfl).2

/-! ## Claim C9 -/

/-- C9 amended: when the activity extractor finds zero items in the final
reply text, fallback exercises are inserted into the habit store if and
only if `isExerciseRequest` matches the user text — and that pattern is a
single flat disjunction over the request vocabulary AND the
exercise/activity vocabulary together, so one keyword from either side
alone (e.g. "need") suffices; with no keyword at all, nothing is
inserted. -/
theorem c9_exercise_fallback :
    ∀ (gen : Nat → String) (snap acc : List HabitItem) (userText reply : String),
      detectExercisesFromResponse reply = [] →
      (exerciseStage gen snap acc userText reply).habits =
        (if isExerciseRequest userText then
          (addTodos gen snap acc
            (generateStressReliefActivities.map (fun ex => ⟨.jstr ex.title, ex.category⟩))).habits
        else acc) := by
  intro gen snap acc userText reply hdet
  unfold exerciseStage
  rw [hdet]
  by_cases hreq : isExerciseRequest userText = true
  · simp [hreq]
    rw [if_pos (by decide)]
  · simp only [Bool.not_eq_true] at hreq
    simp [hreq]

/-- C9 witness: "i need sleep" (request vocabulary only) with a
bullet-free reply triggers the insertion of the fixed exercise pool. -/
theorem c9_witness :
    (exerciseStage (fun n => toString n) [] [] ("i need sleep") ("ok")).habits =
      (addTodos (fun n => toString n) [] []
        (generateStressReliefActivities.map (fun ex => ⟨.jstr ex.title, ex.category⟩))).habits :=
  (c9_exercise_fallback (fun n => toString n) [] [] ("i need sleep") ("ok")
      (by decide)).trans (if_pos (by decide))

def c9env : TurnEnv := ⟨true, .returned none, .returned none, some ("ok"), 0, fun n => toString n⟩

set_option maxRecDepth 100000 in
/-- C9 counterexample: the user text "i need sleep" contains
wants/needs-vocabulary ("need") but NO exercise/activity/workout
vocabulary, and the reply "ok" yields zero extracted items — yet the turn
inserts the five fallback exercises, contradicting the claimed requirement
that both vocabularies be combined. -/
theorem c9_counterexample :
    detectExercisesFromResponse ("ok") = [] ∧
    containsAny (jsLower ("i need sleep"))
      (["exercise", "exercises", "workout", "activity", "activities"]) = false ∧
    (sendMessage c9env [] ("i need sleep")).habits.map (fun h => h.name) =
      generateStressReliefActivities.map (fun t => t.title) := by
  decide

end MH
